import Mathlib

/-!
Verification of the SME marketing-dashboard repository.

This file gives a shallow embedding of the deterministic
ingestion-and-normalization pipeline in `src/preprocess.py`
(`preprocess_marketing_data`) and of the four insight generators in
`src/insights_generator.py`, together with theorems settling the spec
claims about them.

Numeric columns are modelled with exact rationals (`ℚ`); a raw CSV cell is
an `Option String` (`none` models a missing cell, i.e. pandas `NaN`).
-/

namespace MarketingDashboard

/-! ## String utilities -/

/-- Substring test on character lists: `subAux pat l` is true iff `pat`
occurs contiguously inside `l`.  Models pandas `Series.str.contains` with a
literal pattern (the only regex metacharacter in the source, `\+`, is an
escaped literal `+`). -/
def subAux (pat : List Char) : List Char → Bool
  | [] => pat.isEmpty
  | c :: t => pat.isPrefixOf (c :: t) || subAux pat t

/-- Substring test on strings. -/
def strContains (s pat : String) : Bool :=
  subAux pat.toList s.toList

/-- Lower-casing of a string, character by character.  Models Python
`str.lower()` on the ASCII data appearing in this dataset. -/
def lowerStr (s : String) : String :=
  String.mk (s.toList.map Char.toLower)

/-- Strip leading and trailing whitespace.  Models the whitespace tolerance
of Python float conversion used by `pd.to_numeric`. -/
def trimChars (l : List Char) : List Char :=
  ((l.dropWhile Char.isWhitespace).reverse.dropWhile Char.isWhitespace).reverse

/-- Column-name standardization from `preprocess.py` line 21:
`col.replace(' ', '_').replace('(', '').replace(')', '').lower()`. -/
def stdColName (s : String) : String :=
  String.mk (((s.toList.map (fun c => if c = ' ' then '_' else c)).filter
    (fun c => c ≠ '(' && c ≠ ')')).map Char.toLower)

/-! ## Numeric coercion (`pd.to_numeric(..., errors='coerce')`) -/

/-- Value of a list of decimal digit characters. -/
def digitsVal (l : List Char) : Nat :=
  l.foldl (fun a c => a * 10 + (c.toNat - 48)) 0

/-- The syntactic parts of a decimal numeral: sign, integer part,
fractional part and number of fractional digits. -/
structure NumParts where
  neg : Bool
  ip : Nat
  fp : Nat
  fracLen : Nat
deriving DecidableEq

/-- Parse a decimal numeral (optional surrounding whitespace, optional
sign, digits with an optional fractional part).  Returns `none` on any
other input.  Models the accepting/rejecting behaviour of
`pd.to_numeric(..., errors='coerce')` on the decimal numerals this dataset
contains; inputs it rejects coerce to `NaN` in pandas and to `none` here. -/
def parseParts (s : String) : Option NumParts :=
  let t := trimChars s.toList
  let signRest : Bool × List Char :=
    match t with
    | '-' :: r => (true, r)
    | '+' :: r => (false, r)
    | r => (false, r)
  let rest := signRest.2
  let ipChars := rest.takeWhile Char.isDigit
  let rest2 := rest.dropWhile Char.isDigit
  match rest2 with
  | [] =>
    if ipChars.isEmpty then none
    else some ⟨signRest.1, digitsVal ipChars, 0, 0⟩
  | '.' :: frac =>
    let fpChars := frac.takeWhile Char.isDigit
    let rest3 := frac.dropWhile Char.isDigit
    if rest3.isEmpty && !(ipChars.isEmpty && fpChars.isEmpty) then
      some ⟨signRest.1, digitsVal ipChars, digitsVal fpChars, fpChars.length⟩
    else none
  | _ => none

/-- Rational value of a parsed numeral. -/
def ratOfParts (p : NumParts) : ℚ :=
  (if p.neg then -1 else 1) * ((p.ip : ℚ) + (p.fp : ℚ) / 10 ^ p.fracLen)

/-- Numeric parse of one raw cell, as a rational. -/
def parseNum (s : String) : Option ℚ :=
  (parseParts s).map ratOfParts

/-! ## Rounding primitives of the pipeline -/

/-- Truncation toward zero: the effect of `Series.astype(int)` on a float
value (C-style cast). -/
def truncQ (q : ℚ) : ℤ :=
  if 0 ≤ q then ⌊q⌋ else -⌊-q⌋

/-- Round half to even, the rounding used by numpy/pandas `Series.round`. -/
def roundHE (q : ℚ) : ℤ :=
  if q - ⌊q⌋ < 1 / 2 then ⌊q⌋
  else if 1 / 2 < q - ⌊q⌋ then ⌊q⌋ + 1
  else if ⌊q⌋ % 2 = 0 then ⌊q⌋ else ⌊q⌋ + 1

/-- Rounding to two decimal places, the effect of `Series.round(2)`. -/
def round2 (q : ℚ) : ℚ :=
  (roundHE (q * 100) : ℚ) / 100

/-! ## The raw table and the cleaning pipeline (`src/preprocess.py`) -/

/-- A raw tabular file as produced by `pd.read_csv`: a header row naming
the columns and data rows of optional cells (`none` = missing cell = NaN).
An empty header models a file with no parsable columns, on which
`pd.read_csv` raises `EmptyDataError`. -/
structure RawInput where
  header : List String
  rows : List (List (Option String))
deriving DecidableEq

/-- Cell of a row under a named column (first column of that name), or
`none` when the column is absent or the cell is missing. -/
def getCell (hdr : List String) (row : List (Option String)) (c : String) :
    Option String :=
  match (hdr.zip row).find? (fun p => p.1 == c) with
  | some p => p.2
  | none => none

/-- One cleaned numeric cell: `pd.to_numeric(df[col], errors='coerce').fillna(0)`
applied at a single row. -/
def cleanNum (hdr : List String) (row : List (Option String)) (c : String) : ℚ :=
  ((getCell hdr row c).bind parseNum).getD 0

/-- One `df.loc[cond, 'company_size_clean'] = v` assignment step at a
single row: overwrite the current value when the condition holds. -/
def locAssign (cur : Option String) (p : Bool × String) : Option String :=
  if p.1 then some p.2 else cur

/-- The company-size cleaning of `preprocess.py` lines 24-32 at one cell:
lower-case the raw text (pandas `astype(str)` renders a missing cell as
`"nan"`), then perform the four sequential conditional assignments, in
source order.  A later assignment overwrites an earlier one. -/
def sizeClean (raw : String) : Option String :=
  let s := lowerStr raw
  [(strContains s "jan", "1-10"),
   (strContains s "nov", "11-50"),
   (strContains s "51-100", "51-100"),
   (strContains s "100+", "100+")].foldl locAssign none

/-- Modelled from the spec: the company-size canonicalization as the spec
words it (section 4.1 step 2) - lower-case and trim, then first match wins
in the priority order `jan`, `nov`, `11-50`, `51-100`, `100+`.  Used only
to compare the spec's rule table with the source's `sizeClean`. -/
def sizeCleanSpec (raw : String) : Option String :=
  let s := lowerStr (String.mk (trimChars raw.toList))
  if strContains s "jan" then some "1-10"
  else if strContains s "nov" then some "11-50"
  else if strContains s "11-50" then some "11-50"
  else if strContains s "51-100" then some "51-100"
  else if strContains s "100+" then some "100+"
  else none

/-- One cleaned and enriched campaign record, with the columns the spec
constrains.  `company_size = none` is the missing/unknown bucket (pandas
`NaN` inside the ordered categorical);  `duration_days = none` means the
optional column was absent from the dataset. -/
structure CleanRow where
  company_size : Option String
  ad_spend : ℚ
  duration_days : Option ℚ
  engagement_metric : ℚ
  conversion_rate : ℚ
  audience_reach : ℤ
  conversions : ℤ
  cost_per_engagement : ℚ
  cost_per_conversion : ℚ
deriving DecidableEq

/-- Cleaning and KPI derivation of one row (`preprocess.py` lines 23-56):
company-size canonicalization, numeric coercion with `fillna(0)`, the
integer cast of `audience_reach`, and the three derived metrics with their
`where(... > 0, 0)` guards and `round` calls. -/
def cleanRow (hdr : List String) (row : List (Option String)) : CleanRow :=
  let sizeRaw := (getCell hdr row "company_size").getD "nan"
  let ad_spend := cleanNum hdr row "ad_spend"
  let dur := if hdr.contains "duration_days" then
      some (cleanNum hdr row "duration_days") else none
  let engagement_metric := cleanNum hdr row "engagement_metric"
  let conversion_rate := cleanNum hdr row "conversion_rate"
  let audience_reach := truncQ (cleanNum hdr row "audience_reach")
  let conversions := roundHE ((audience_reach : ℚ) * (conversion_rate / 100))
  let cost_per_engagement :=
    if 0 < engagement_metric then round2 (ad_spend / engagement_metric) else 0
  let cost_per_conversion :=
    if 0 < conversions then round2 (ad_spend / (conversions : ℚ)) else 0
  ⟨sizeClean sizeRaw, ad_spend, dur, engagement_metric, conversion_rate,
    audience_reach, conversions, cost_per_engagement, cost_per_conversion⟩

/-- The `duration` → `duration_days` rename of `preprocess.py` lines 42-43. -/
def renameDuration (hdr : List String) : List String :=
  if hdr.contains "duration" then
    hdr.map (fun c => if c = "duration" then "duration_days" else c)
  else hdr

/-- The whole pipeline `preprocess_marketing_data` of `src/preprocess.py`
as a function from the read attempt to the written output.

Input `none` models `FileNotFoundError` from `pd.read_csv`: the source
catches it, prints a fatal error and returns without writing.  An empty
header models `EmptyDataError` on an empty file: uncaught, so the run
aborts before writing.  A missing `company_size` column makes line 24
(`df['company_size']`) raise an uncaught `KeyError`; a missing base KPI
column makes lines 54-55 raise an uncaught `KeyError`.  Every abort path
yields `none` (no output file); a successful run yields the cleaned rows,
in input order. -/
def preprocess_marketing_data (inp : Option RawInput) : Option (List CleanRow) :=
  match inp with
  | none => none
  | some raw =>
    if raw.header.isEmpty then none
    else
      let hdr := raw.header.map stdColName
      if hdr.contains "company_size" then
        let hdr2 := renameDuration hdr
        if hdr2.contains "ad_spend" && hdr2.contains "engagement_metric"
            && hdr2.contains "conversion_rate" && hdr2.contains "audience_reach" then
          some (raw.rows.map (cleanRow hdr2))
        else none
      else none

/-- State of the fixed output path `assets/marketing_data.parquet` after one
pipeline invocation: a successful run overwrites the file with its output,
a failed run leaves the previous contents untouched. -/
def runOn (inp : Option RawInput) (fs : Option (List CleanRow)) :
    Option (List CleanRow) :=
  match preprocess_marketing_data inp with
  | some out => some out
  | none => fs

/-! ## Insight generators (`src/insights_generator.py`) -/

/-- One row of the filtered dataframe handed to the insight generators by
the dashboard (the cleaned parquet columns they read). -/
structure CampaignRow where
  marketing_channel : String
  target_audience : String
  device : String
  region : String
  ad_spend : ℚ
  engagement_metric : ℚ
  conversion_rate : ℚ
  cost_per_conversion : ℚ
  audience_reach : ℤ
  conversions : ℤ
deriving DecidableEq

/-- Sum of a list of rationals. -/
def sumQ (l : List ℚ) : ℚ :=
  l.foldl (fun a b => a + b) 0

/-- Sum of a list of integers. -/
def sumZ (l : List ℤ) : ℤ :=
  l.foldl (fun a b => a + b) 0

/-- Mean of a list of rationals (groups are nonempty, so the guard is
never the interesting case). -/
def meanQ (l : List ℚ) : ℚ :=
  if l.isEmpty then 0 else sumQ l / (l.length : ℚ)

/-- Code-point lexicographic order on character lists (Python string
ordering, used by pandas when sorting group keys). -/
def lexLe : List Char → List Char → Bool
  | [], _ => true
  | _ :: _, [] => false
  | a :: as, b :: bs =>
    if a.toNat < b.toNat then true
    else if b.toNat < a.toNat then false
    else lexLe as bs

/-- Lexicographic order on strings. -/
def strLeB (a b : String) : Bool :=
  lexLe a.toList b.toList

/-- The sorted distinct group keys produced by `groupby` on a string
column. -/
def sortedKeys (l : List String) : List String :=
  l.dedup.mergeSort strLeB

/-- One row of the per-channel aggregate table in
`generate_channel_insights`. -/
structure ChannelPerf where
  marketing_channel : String
  total_spend : ℚ
  avg_cvr : ℚ
  avg_cpc : ℚ
deriving DecidableEq

/-- One row of the per-region aggregate table in `generate_geo_insights`. -/
structure GeoPerf where
  region : String
  total_spend : ℚ
  avg_cpc : ℚ
deriving DecidableEq

/-- The data each generator interpolates into its prompt template before
handing it to `get_ai_summary`. -/
inductive PromptData
  | overview (total_reach : ℤ) (total_engagement : ℚ) (total_conversions : ℤ)
      (reach_to_engagement_rate engagement_to_conversion_rate : ℚ)
  | channel (table : List ChannelPerf)
  | audience (top_audience_segment top_device_type : String)
  | geo (aligned : Bool) (highest_spend_region most_efficient_region : String)
deriving DecidableEq

/-- Result of one insight generator: either a literal string returned
without contacting the generative-text service, or a call to
`get_ai_summary` carrying the interpolated prompt data. -/
inductive InsightOutput
  | fallback (msg : String)
  | apiCall (prompt : PromptData)
deriving DecidableEq

/-- `generate_overview_insights` (`insights_generator.py` lines 26-52). -/
def generate_overview_insights (filtered_df : List CampaignRow) : InsightOutput :=
  if filtered_df.isEmpty then .fallback "Not enough data for an overview analysis."
  else
    let total_reach := sumZ (filtered_df.map (fun r => r.audience_reach))
    let total_engagement := sumQ (filtered_df.map (fun r => r.engagement_metric))
    let total_conversions := sumZ (filtered_df.map (fun r => r.conversions))
    let reach_to_engagement_rate :=
      if 0 < total_reach then total_engagement / (total_reach : ℚ) * 100 else 0
    let engagement_to_conversion_rate :=
      if 0 < total_engagement then (total_conversions : ℚ) / total_engagement * 100 else 0
    .apiCall (.overview total_reach total_engagement total_conversions
      reach_to_engagement_rate engagement_to_conversion_rate)

/-- `generate_channel_insights` (`insights_generator.py` lines 49-68):
group by channel, aggregate, round, sort by average cost per conversion. -/
def generate_channel_insights (filtered_df : List CampaignRow) : InsightOutput :=
  if filtered_df.isEmpty then .fallback "Not enough channel data to analyze."
  else
    let keys := sortedKeys (filtered_df.map (fun r => r.marketing_channel))
    let table := keys.map (fun k =>
      let g := filtered_df.filter (fun r => r.marketing_channel == k)
      (⟨k, round2 (sumQ (g.map (fun r => r.ad_spend))),
          round2 (meanQ (g.map (fun r => r.conversion_rate))),
          round2 (meanQ (g.map (fun r => r.cost_per_conversion)))⟩ : ChannelPerf))
    .apiCall (.channel (table.mergeSort (fun a b => decide (a.avg_cpc ≤ b.avg_cpc))))

/-- `generate_audience_insights` (`insights_generator.py` lines 69-89):
mean conversion rate per audience segment and per device, sorted
descending; the top key of each is quoted into the prompt. -/
def generate_audience_insights (filtered_df : List CampaignRow) : InsightOutput :=
  if filtered_df.isEmpty then .fallback "Not enough audience data to analyze."
  else
    let audience_cvr := ((sortedKeys (filtered_df.map (fun r => r.target_audience))).map
      (fun k => (k, meanQ ((filtered_df.filter (fun r => r.target_audience == k)).map
        (fun r => r.conversion_rate))))).mergeSort (fun a b => decide (b.2 ≤ a.2))
    let device_cvr := ((sortedKeys (filtered_df.map (fun r => r.device))).map
      (fun k => (k, meanQ ((filtered_df.filter (fun r => r.device == k)).map
        (fun r => r.conversion_rate))))).mergeSort (fun a b => decide (b.2 ≤ a.2))
    let top_audience_segment :=
      match audience_cvr.head? with
      | some p => "\x27" ++ p.1 ++ "\x27"
      | none => "N/A"
    let top_device_type :=
      match device_cvr.head? with
      | some p => "\x27" ++ p.1 ++ "\x27"
      | none => "N/A"
    .apiCall (.audience top_audience_segment top_device_type)

/-- `generate_geo_insights` (`insights_generator.py` lines 91-125): group
by region, aggregate spend and average cost per conversion; bail out with
a second fallback when no region has a positive average cost per
conversion; otherwise compare the highest-spend region with the most
efficient one and build the matching prompt. -/
def generate_geo_insights (filtered_df : List CampaignRow) : InsightOutput :=
  if filtered_df.isEmpty then .fallback "Not enough geographic data to analyze."
  else
    let geo_perf := (sortedKeys (filtered_df.map (fun r => r.region))).map (fun k =>
      let g := filtered_df.filter (fun r => r.region == k)
      (⟨k, round2 (sumQ (g.map (fun r => r.ad_spend))),
          round2 (meanQ (g.map (fun r => r.cost_per_conversion)))⟩ : GeoPerf))
    if geo_perf.isEmpty || geo_perf.all (fun g => decide (g.avg_cpc ≤ 0)) then
      .fallback "Could not determine an efficient region from the available data."
    else
      let highest_spend_region :=
        match geo_perf with
        | [] => "N/A"
        | h :: t => (t.foldl (fun b p => if b.total_spend < p.total_spend then p else b) h).region
      let most_efficient_region :=
        match geo_perf.filter (fun g => decide (0 < g.avg_cpc)) with
        | [] => "N/A"
        | h :: t => (t.foldl (fun b p => if p.avg_cpc < b.avg_cpc then p else b) h).region
      .apiCall (.geo (highest_spend_region == most_efficient_region)
        highest_spend_region most_efficient_region)

/-! ## Field equations of `cleanRow` -/

theorem cleanRow_company_size (hdr : List String) (row : List (Option String)) :
    (cleanRow hdr row).company_size =
      sizeClean ((getCell hdr row "company_size").getD "nan") := rfl

theorem cleanRow_ad_spend (hdr : List String) (row : List (Option String)) :
    (cleanRow hdr row).ad_spend = cleanNum hdr row "ad_spend" := rfl

theorem cleanRow_duration_days (hdr : List String) (row : List (Option String)) :
    (cleanRow hdr row).duration_days =
      (if hdr.contains "duration_days" then some (cleanNum hdr row "duration_days")
       else none) := rfl

theorem cleanRow_engagement_metric (hdr : List String) (row : List (Option String)) :
    (cleanRow hdr row).engagement_metric = cleanNum hdr row "engagement_metric" := rfl

theorem cleanRow_conversion_rate (hdr : List String) (row : List (Option String)) :
    (cleanRow hdr row).conversion_rate = cleanNum hdr row "conversion_rate" := rfl

theorem cleanRow_audience_reach (hdr : List String) (row : List (Option String)) :
    (cleanRow hdr row).audience_reach = truncQ (cleanNum hdr row "audience_reach") := rfl

theorem cleanRow_conversions (hdr : List String) (row : List (Option String)) :
    (cleanRow hdr row).conversions =
      roundHE ((truncQ (cleanNum hdr row "audience_reach") : ℚ) *
        (cleanNum hdr row "conversion_rate" / 100)) := rfl

theorem cleanRow_cpe (hdr : List String) (row : List (Option String)) :
    (cleanRow hdr row).cost_per_engagement =
      (if 0 < cleanNum hdr row "engagement_metric" then
        round2 (cleanNum hdr row "ad_spend" / cleanNum hdr row "engagement_metric")
       else 0) := rfl

theorem cleanRow_cpc (hdr : List String) (row : List (Option String)) :
    (cleanRow hdr row).cost_per_conversion =
      (if 0 < (cleanRow hdr row).conversions then
        round2 (cleanNum hdr row "ad_spend" / ((cleanRow hdr row).conversions : ℚ))
       else 0) := rfl

/-! ## Rounding lemmas -/

theorem roundHE_nonneg (q : ℚ) (hq : 0 ≤ q) : 0 ≤ roundHE q := by
  have h0 : 0 ≤ ⌊q⌋ := Int.floor_nonneg.mpr hq
  unfold roundHE
  split_ifs <;> omega

theorem truncQ_eq_floor (q : ℚ) (hq : 0 ≤ q) : truncQ q = ⌊q⌋ := if_pos hq

theorem truncQ_nonneg (q : ℚ) (hq : 0 ≤ q) : 0 ≤ truncQ q := by
  rw [truncQ_eq_floor q hq]
  exact Int.floor_nonneg.mpr hq

theorem truncQ_zero : truncQ 0 = 0 := by norm_num [truncQ]

/-! ## Evaluation lemmas for numeric cells -/

theorem parseNum_eval (s : String) (p : NumParts) (hp : parseParts s = some p) :
    parseNum s = some (ratOfParts p) := by
  simp [parseNum, hp]

theorem cellParse (hdr : List String) (row : List (Option String)) (c s : String)
    (q : ℚ) (h1 : getCell hdr row c = some s) (h2 : parseNum s = some q) :
    (getCell hdr row c).bind parseNum = some q := by
  rw [h1]
  exact h2

theorem cleanNum_eq_of_parse (hdr : List String) (row : List (Option String))
    (c : String) (v : ℚ) (h : (getCell hdr row c).bind parseNum = some v) :
    cleanNum hdr row c = v := by
  simp [cleanNum, h]

theorem cleanNum_eq_zero (hdr : List String) (row : List (Option String))
    (c : String) (h : (getCell hdr row c).bind parseNum = none) :
    cleanNum hdr row c = 0 := by
  simp [cleanNum, h]

theorem cleanNum_nonneg (hdr : List String) (row : List (Option String)) (c : String)
    (h : ∀ v, (getCell hdr row c).bind parseNum = some v → 0 ≤ v) :
    0 ≤ cleanNum hdr row c := by
  cases hh : (getCell hdr row c).bind parseNum with
  | none => rw [cleanNum_eq_zero hdr row c hh]
  | some v => rw [cleanNum_eq_of_parse hdr row c v hh]; exact h v hh

theorem nonneg_of_eval (o : Option ℚ) (w : ℚ) (hw : o = some w) (h0 : 0 ≤ w) :
    ∀ v, o = some v → 0 ≤ v := by
  intro v hv
  rw [hw] at hv
  obtain rfl := Option.some_inj.mp hv
  exact h0

theorem nonneg_of_none (o : Option ℚ) (h : o = none) :
    ∀ v, o = some v → 0 ≤ v := by
  intro v hv
  rw [h] at hv
  exact absurd hv (by simp)

/-- Every value `sizeClean` can produce is one of the four canonical
categories or the missing bucket. -/
theorem sizeClean_mem_domain (s : String) :
    sizeClean s = none ∨ sizeClean s = some "1-10" ∨ sizeClean s = some "11-50" ∨
      sizeClean s = some "51-100" ∨ sizeClean s = some "100+" := by
  simp only [sizeClean, List.foldl, locAssign]
  split_ifs <;> simp

/-! ## Concrete raw inputs for counterexamples and witnesses -/

/-- The standardized header of a well-formed raw dataset (as it looks after
the header-normalization step). -/
def exHdr : List String :=
  ["company_size", "ad_spend", "audience_reach", "conversion_rate", "engagement_metric"]

/-- The raw row of the spec's own worked scenario:
`{company_size: "Jan", ad_spend: "150", audience_reach: "1000",
conversion_rate: "5", engagement_metric: "0"}`. -/
def exRowSpec : List (Option String) :=
  [some "Jan", some "150", some "1000", some "5", some "0"]

/-- A clean all-positive row with nonzero engagement. -/
def exRowGood : List (Option String) :=
  [some "Jan", some "150", some "1000", some "5", some "2"]

/-- A row whose `ad_spend` is the parseable negative numeral `-5`. -/
def exRowNegSpend : List (Option String) :=
  [some "Jan", some "-5", some "10", some "50", some "2"]

/-- A row whose `audience_reach` is the fractional numeral `3.9`. -/
def exRowReach39 : List (Option String) :=
  [some "Jan", some "10", some "3.9", some "5", some "2"]

/-- A row with `ad_spend = 10` and `engagement_metric = 3`, whose exact
cost per engagement `10/3` is not representable in two decimals. -/
def exRowEng3 : List (Option String) :=
  [some "Jan", some "10", some "100", some "5", some "3"]

/-- A row whose `engagement_metric` is the negative numeral `-2`. -/
def exRowEngNeg : List (Option String) :=
  [some "Jan", some "10", some "100", some "5", some "-2"]

/-- A row whose `conversion_rate` is the negative numeral `-50`. -/
def exRowRateNeg : List (Option String) :=
  [some "Jan", some "10", some "10", some "-50", some "2"]

/-- A nonempty raw table without any `company_size` column. -/
def exNoSize : RawInput :=
  ⟨["industry", "ad_spend", "audience_reach", "conversion_rate", "engagement_metric"],
   [[some "retail", some "150", some "1000", some "5", some "2"]]⟩

/-- A raw table with well-formed (unnormalized) headers and no data rows. -/
def exRawOk : RawInput :=
  ⟨["Company Size", "Ad Spend", "Audience Reach", "Conversion Rate", "Engagement Metric"],
   []⟩

/-! ## Parse evaluations of the concrete cells -/

theorem parse150 : parseNum "150" = some 150 := by
  rw [parseNum_eval "150" ⟨false, 150, 0, 0⟩ (by decide)]
  norm_num [ratOfParts]

theorem parse1000 : parseNum "1000" = some 1000 := by
  rw [parseNum_eval "1000" ⟨false, 1000, 0, 0⟩ (by decide)]
  norm_num [ratOfParts]

theorem parse10 : parseNum "10" = some 10 := by
  rw [parseNum_eval "10" ⟨false, 10, 0, 0⟩ (by decide)]
  norm_num [ratOfParts]

theorem parse5 : parseNum "5" = some 5 := by
  rw [parseNum_eval "5" ⟨false, 5, 0, 0⟩ (by decide)]
  norm_num [ratOfParts]

theorem parse3 : parseNum "3" = some 3 := by
  rw [parseNum_eval "3" ⟨false, 3, 0, 0⟩ (by decide)]
  norm_num [ratOfParts]

theorem parse2 : parseNum "2" = some 2 := by
  rw [parseNum_eval "2" ⟨false, 2, 0, 0⟩ (by decide)]
  norm_num [ratOfParts]

theorem parse0 : parseNum "0" = some 0 := by
  rw [parseNum_eval "0" ⟨false, 0, 0, 0⟩ (by decide)]
  norm_num [ratOfParts]

theorem parse39 : parseNum "3.9" = some (39 / 10) := by
  rw [parseNum_eval "3.9" ⟨false, 3, 9, 1⟩ (by decide)]
  norm_num [ratOfParts]

theorem parseNeg5 : parseNum "-5" = some (-5) := by
  rw [parseNum_eval "-5" ⟨true, 5, 0, 0⟩ (by decide)]
  norm_num [ratOfParts]

theorem parseNeg2 : parseNum "-2" = some (-2) := by
  rw [parseNum_eval "-2" ⟨true, 2, 0, 0⟩ (by decide)]
  norm_num [ratOfParts]

theorem parseNeg50 : parseNum "-50" = some (-50) := by
  rw [parseNum_eval "-50" ⟨true, 50, 0, 0⟩ (by decide)]
  norm_num [ratOfParts]

/-! ## Field evaluations on the concrete rows -/

theorem spend_exRowSpec : (cleanRow exHdr exRowSpec).ad_spend = 150 := by
  rw [cleanRow_ad_spend]
  exact cleanNum_eq_of_parse _ _ _ _ (cellParse _ _ _ _ _ (by decide) parse150)

theorem rate_exRowSpec : (cleanRow exHdr exRowSpec).conversion_rate = 5 := by
  rw [cleanRow_conversion_rate]
  exact cleanNum_eq_of_parse _ _ _ _ (cellParse _ _ _ _ _ (by decide) parse5)

theorem reach_exRowSpec : (cleanRow exHdr exRowSpec).audience_reach = 1000 := by
  rw [cleanRow_audience_reach,
    cleanNum_eq_of_parse _ _ _ _ (cellParse _ _ _ _ _ (by decide) parse1000)]
  norm_num [truncQ]

theorem conv_exRowSpec : (cleanRow exHdr exRowSpec).conversions = 50 := by
  rw [cleanRow_conversions,
    cleanNum_eq_of_parse _ _ _ _ (cellParse _ _ _ _ _ (by decide) parse1000),
    cleanNum_eq_of_parse _ _ _ _ (cellParse _ _ _ _ _ (by decide) parse5)]
  norm_num [truncQ, roundHE]

theorem eng_exRowEng3 : (cleanRow exHdr exRowEng3).engagement_metric = 3 := by
  rw [cleanRow_engagement_metric]
  exact cleanNum_eq_of_parse _ _ _ _ (cellParse _ _ _ _ _ (by decide) parse3)

theorem spend_exRowEng3 : (cleanRow exHdr exRowEng3).ad_spend = 10 := by
  rw [cleanRow_ad_spend]
  exact cleanNum_eq_of_parse _ _ _ _ (cellParse _ _ _ _ _ (by decide) parse10)

theorem eng_exRowEngNeg : (cleanRow exHdr exRowEngNeg).engagement_metric = -2 := by
  rw [cleanRow_engagement_metric]
  exact cleanNum_eq_of_parse _ _ _ _ (cellParse _ _ _ _ _ (by decide) parseNeg2)

theorem spend_exRowEngNeg : (cleanRow exHdr exRowEngNeg).ad_spend = 10 := by
  rw [cleanRow_ad_spend]
  exact cleanNum_eq_of_parse _ _ _ _ (cellParse _ _ _ _ _ (by decide) parse10)

theorem rate_exRowRateNeg : (cleanRow exHdr exRowRateNeg).conversion_rate = -50 := by
  rw [cleanRow_conversion_rate]
  exact cleanNum_eq_of_parse _ _ _ _ (cellParse _ _ _ _ _ (by decide) parseNeg50)

theorem conv_exRowRateNeg : (cleanRow exHdr exRowRateNeg).conversions = -5 := by
  rw [cleanRow_conversions,
    cleanNum_eq_of_parse _ _ _ _ (cellParse _ _ _ _ _ (by decide) parse10),
    cleanNum_eq_of_parse _ _ _ _ (cellParse _ _ _ _ _ (by decide) parseNeg50)]
  norm_num [truncQ, roundHE]

/-! ## Claims -/

/-- C1 (counterexample): on a nonempty raw table that merely lacks the
`company_size` column the pipeline does NOT complete with the field
omitted - it produces no output at all (the uncaught `KeyError` of
`df['company_size']` aborts the run). -/
theorem c1_counterexample :
    preprocess_marketing_data (some exNoSize) = none ∧
      exNoSize.header ≠ [] ∧ exNoSize.rows ≠ [] := by
  refine ⟨by decide, by decide, by decide⟩

/-- C1 (amended): if the raw input has no `company_size` column (after
header normalization), the run aborts at the `df['company_size']` access
with an uncaught `KeyError` and no cleaned output is produced; the
missing-optional-column tolerance of the numeric-coercion loop does not
extend to `company_size`. -/
theorem c1_missing_company_size_aborts (raw : RawInput)
    (h : (raw.header.map stdColName).contains "company_size" = false) :
    preprocess_marketing_data (some raw) = none := by
  simp only [preprocess_marketing_data, h, Bool.false_eq_true, if_false, ite_self]

/-- C1 witness: the amended theorem applies to a concrete table. -/
theorem c1_witness :
    (exNoSize.header.map stdColName).contains "company_size" = false ∧
      preprocess_marketing_data (some exNoSize) = none :=
  ⟨by decide, c1_missing_company_size_aborts exNoSize (by decide)⟩

/-- C2 (counterexample): canonicalization is not first-match-wins over the
spec's five-pattern table: `"Jan 51-100"` matches `jan` first yet cleans
to `51-100` (the last matching `df.loc` assignment wins), and the literal
`"11-50"` - which the spec's third pattern maps to `11-50` - cleans to the
missing bucket, because the code tests no `11-50` pattern. -/
theorem c2_counterexample :
    sizeClean "Jan 51-100" = some "51-100" ∧ sizeCleanSpec "Jan 51-100" = some "1-10" ∧
      sizeClean "11-50" = none ∧ sizeCleanSpec "11-50" = some "11-50" := by
  refine ⟨by decide, by decide, by decide, by decide⟩

/-- C2 (amended): company-size canonicalization lower-cases the raw text
and applies exactly four substring rules - `jan`→`1-10`, `nov`→`11-50`,
`51-100`→`51-100`, `100+`→`100+` - as sequential overwrites, so for a raw
value matching several patterns the LAST pattern in this order wins; there
is no separate `11-50` pattern. -/
theorem c2_last_match_wins (s : String) :
    sizeClean s =
      (if strContains (lowerStr s) "100+" then some "100+"
       else if strContains (lowerStr s) "51-100" then some "51-100"
       else if strContains (lowerStr s) "nov" then some "11-50"
       else if strContains (lowerStr s) "jan" then some "1-10"
       else none) := by
  simp only [sizeClean, List.foldl, locAssign]

/-- C3: on any successful run every cleaned record's `company_size` is one
of the four canonical categories or the explicit missing/unknown bucket
(`none`), never arbitrary raw text, and no row is dropped. -/
theorem c3_company_size_domain (raw : RawInput) (out : List CleanRow)
    (h : preprocess_marketing_data (some raw) = some out) :
    out.length = raw.rows.length ∧
      ∀ r ∈ out, r.company_size = none ∨ r.company_size = some "1-10" ∨
        r.company_size = some "11-50" ∨ r.company_size = some "51-100" ∨
        r.company_size = some "100+" := by
  simp only [preprocess_marketing_data] at h
  split at h
  · exact absurd h (by simp)
  · split at h
    · split at h
      · obtain rfl := (Option.some_inj.mp h).symm
        refine ⟨List.length_map _ _, ?_⟩
        intro r hr
        rw [List.mem_map] at hr
        obtain ⟨row, _, rfl⟩ := hr
        rw [cleanRow_company_size]
        exact sizeClean_mem_domain _
      · exact absurd h (by simp)
    · exact absurd h (by simp)

/-- C3 witness: a concrete successful run satisfying the hypothesis. -/
theorem c3_witness :
    ([] : List CleanRow).length = exRawOk.rows.length ∧
      ∀ r ∈ ([] : List CleanRow), r.company_size = none ∨ r.company_size = some "1-10" ∨
        r.company_size = some "11-50" ∨ r.company_size = some "51-100" ∨
        r.company_size = some "100+" :=
  c3_company_size_domain exRawOk [] (by decide)

/-- C4 (counterexample): cleaned numeric fields are not unconditionally
non-negative: the parseable raw `ad_spend` value `"-5"` passes through
unclamped and the cleaned field is `-5 < 0`. -/
theorem c4_counterexample :
    (cleanRow exHdr exRowNegSpend).ad_spend = -5 ∧
      ¬ 0 ≤ (cleanRow exHdr exRowNegSpend).ad_spend := by
  have h : (cleanRow exHdr exRowNegSpend).ad_spend = -5 := by
    rw [cleanRow_ad_spend]
    exact cleanNum_eq_of_parse _ _ _ _ (cellParse _ _ _ _ _ (by decide) parseNeg5)
  refine ⟨h, ?_⟩
  rw [h]
  norm_num

/-- C4 (amended): any numeric cell that fails to parse becomes exactly `0`
in the cleaned record - never a missing-value sentinel, never an
exception, never a skipped row - while values that do parse pass through
unclamped; hence the cleaned numeric fields are non-negative exactly when
every parseable raw value is non-negative (a raw negative numeral refutes
the unconditional non-negativity the claim states). -/
theorem c4_unparseable_to_zero (hdr : List String) (row : List (Option String))
    (hs : ∀ v, (getCell hdr row "ad_spend").bind parseNum = some v → 0 ≤ v)
    (he : ∀ v, (getCell hdr row "engagement_metric").bind parseNum = some v → 0 ≤ v)
    (hc : ∀ v, (getCell hdr row "conversion_rate").bind parseNum = some v → 0 ≤ v)
    (hr : ∀ v, (getCell hdr row "audience_reach").bind parseNum = some v → 0 ≤ v)
    (hd : ∀ v, (getCell hdr row "duration_days").bind parseNum = some v → 0 ≤ v) :
    (0 ≤ (cleanRow hdr row).ad_spend ∧ 0 ≤ (cleanRow hdr row).engagement_metric ∧
      0 ≤ (cleanRow hdr row).conversion_rate ∧ 0 ≤ (cleanRow hdr row).audience_reach ∧
      ∀ q, (cleanRow hdr row).duration_days = some q → 0 ≤ q) ∧
    ((getCell hdr row "ad_spend").bind parseNum = none →
      (cleanRow hdr row).ad_spend = 0) ∧
    ((getCell hdr row "audience_reach").bind parseNum = none →
      (cleanRow hdr row).audience_reach = 0) := by
  refine ⟨⟨?_, ?_, ?_, ?_, ?_⟩, ?_, ?_⟩
  · rw [cleanRow_ad_spend]
    exact cleanNum_nonneg _ _ _ hs
  · rw [cleanRow_engagement_metric]
    exact cleanNum_nonneg _ _ _ he
  · rw [cleanRow_conversion_rate]
    exact cleanNum_nonneg _ _ _ hc
  · rw [cleanRow_audience_reach]
    exact truncQ_nonneg _ (cleanNum_nonneg _ _ _ hr)
  · intro q hq
    rw [cleanRow_duration_days] at hq
    by_cases hmem : hdr.contains "duration_days"
    · rw [if_pos hmem] at hq
      obtain rfl := (Option.some_inj.mp hq).symm
      exact cleanNum_nonneg _ _ _ hd
    · rw [if_neg hmem] at hq
      exact absurd hq (by simp)
  · intro hn
    rw [cleanRow_ad_spend]
    exact cleanNum_eq_zero _ _ _ hn
  · intro hn
    rw [cleanRow_audience_reach, cleanNum_eq_zero _ _ _ hn]
    exact truncQ_zero

/-- C4 witness: the amended theorem applied to a concrete all-parseable
non-negative row. -/
theorem c4_witness :
    0 ≤ (cleanRow exHdr exRowGood).ad_spend ∧
      0 ≤ (cleanRow exHdr exRowGood).engagement_metric ∧
      0 ≤ (cleanRow exHdr exRowGood).conversion_rate ∧
      0 ≤ (cleanRow exHdr exRowGood).audience_reach := by
  have h := c4_unparseable_to_zero exHdr exRowGood
    (nonneg_of_eval _ _ (cellParse _ _ _ _ _ (by decide) parse150) (by norm_num))
    (nonneg_of_eval _ _ (cellParse _ _ _ _ _ (by decide) parse2) (by norm_num))
    (nonneg_of_eval _ _ (cellParse _ _ _ _ _ (by decide) parse5) (by norm_num))
    (nonneg_of_eval _ _ (cellParse _ _ _ _ _ (by decide) parse1000) (by norm_num))
    (nonneg_of_none _ (by decide))
  exact ⟨h.1.1, h.1.2.1, h.1.2.2.1, h.1.2.2.2.1⟩

/-- C5 (counterexample): the fractional raw `audience_reach` value `"3.9"`
cleans to `3` (`astype(int)` truncation), although the integer nearest to
`3.9` is `4`. -/
theorem c5_counterexample :
    (cleanRow exHdr exRowReach39).audience_reach = 3 ∧
      |(39 : ℚ) / 10 - 4| < |(39 : ℚ) / 10 - 3| := by
  constructor
  · rw [cleanRow_audience_reach,
      cleanNum_eq_of_parse _ _ _ _ (cellParse _ _ _ _ _ (by decide) parse39)]
    norm_num [truncQ]
  · rw [abs_of_nonpos (by norm_num), abs_of_nonneg (by norm_num)]
    norm_num

/-- C5 (amended): the cleaned `audience_reach` is the parsed value cast to
an integer by truncation toward zero - for a non-negative value the floor,
not the nearest integer - and it is stored as an integer. -/
theorem c5_reach_truncated (hdr : List String) (row : List (Option String)) (v : ℚ)
    (h : (getCell hdr row "audience_reach").bind parseNum = some v) :
    (cleanRow hdr row).audience_reach = truncQ v ∧
      (0 ≤ v → ((cleanRow hdr row).audience_reach : ℚ) ≤ v ∧
        v < ((cleanRow hdr row).audience_reach : ℚ) + 1) := by
  have hb : (cleanRow hdr row).audience_reach = truncQ v := by
    rw [cleanRow_audience_reach, cleanNum_eq_of_parse _ _ _ _ h]
  refine ⟨hb, fun hv => ?_⟩
  rw [hb, truncQ_eq_floor v hv]
  constructor
  · exact_mod_cast Int.floor_le v
  · exact_mod_cast Int.lt_floor_add_one v

/-- C5 witness: the amended theorem applied at the concrete fractional
reach `3.9`. -/
theorem c5_witness :
    (cleanRow exHdr exRowReach39).audience_reach = truncQ (39 / 10) ∧
      ((cleanRow exHdr exRowReach39).audience_reach : ℚ) ≤ 39 / 10 ∧
      (39 : ℚ) / 10 < ((cleanRow exHdr exRowReach39).audience_reach : ℚ) + 1 := by
  have h := c5_reach_truncated exHdr exRowReach39 (39 / 10)
    (cellParse _ _ _ _ _ (by decide) parse39)
  exact ⟨h.1, (h.2 (by norm_num)).1, (h.2 (by norm_num)).2⟩

/-- C6 (counterexample): the derived costs are not the exact quotients the
claim states.  With `ad_spend = 10` and `engagement_metric = 3` the
cleaned cost per engagement is the two-decimal rounding `3.33`, not
`10/3`; and with the parseable negative `engagement_metric = -2` (which is
nonzero) the guard `> 0` yields `0`, not the quotient `-5`. -/
theorem c6_counterexample :
    (cleanRow exHdr exRowEng3).cost_per_engagement = 333 / 100 ∧
      (cleanRow exHdr exRowEng3).ad_spend / (cleanRow exHdr exRowEng3).engagement_metric
        = 10 / 3 ∧
      (333 : ℚ) / 100 ≠ 10 / 3 ∧
      (cleanRow exHdr exRowEngNeg).cost_per_engagement = 0 ∧
      (cleanRow exHdr exRowEngNeg).engagement_metric ≠ 0 ∧
      (cleanRow exHdr exRowEngNeg).ad_spend / (cleanRow exHdr exRowEngNeg).engagement_metric
        ≠ 0 := by
  refine ⟨?_, ?_, by norm_num, ?_, ?_, ?_⟩
  · rw [cleanRow_cpe,
      cleanNum_eq_of_parse _ _ _ _ (cellParse _ _ _ _ _ (by decide) parse3),
      cleanNum_eq_of_parse _ _ _ _ (cellParse _ _ _ _ _ (by decide) parse10)]
    rw [if_pos (by norm_num)]
    norm_num [round2, roundHE]
  · rw [spend_exRowEng3, eng_exRowEng3]
  · rw [cleanRow_cpe,
      cleanNum_eq_of_parse _ _ _ _ (cellParse _ _ _ _ _ (by decide) parseNeg2)]
    rw [if_neg (by norm_num)]
  · rw [eng_exRowEngNeg]
    norm_num
  · rw [spend_exRowEngNeg, eng_exRowEngNeg]
    norm_num

/-- C6 (amended): the derived costs carry a two-decimal rounding and a
strict-positivity guard: `cost_per_engagement` is
`round2(ad_spend / engagement_metric)` when `engagement_metric > 0` and
`0` otherwise (so also for negative dirty values, not only for `0`);
`cost_per_conversion` is `round2(ad_spend / conversions)` when
`conversions > 0` and `0` otherwise.  The guard is applied before any
quotient is used, so no division by zero occurs. -/
theorem c6_cost_guards (hdr : List String) (row : List (Option String)) :
    ((cleanRow hdr row).engagement_metric ≤ 0 →
      (cleanRow hdr row).cost_per_engagement = 0) ∧
    (0 < (cleanRow hdr row).engagement_metric →
      (cleanRow hdr row).cost_per_engagement =
        round2 ((cleanRow hdr row).ad_spend / (cleanRow hdr row).engagement_metric)) ∧
    ((cleanRow hdr row).conversions ≤ 0 →
      (cleanRow hdr row).cost_per_conversion = 0) ∧
    (0 < (cleanRow hdr row).conversions →
      (cleanRow hdr row).cost_per_conversion =
        round2 ((cleanRow hdr row).ad_spend / ((cleanRow hdr row).conversions : ℚ))) := by
  refine ⟨fun h => ?_, fun h => ?_, fun h => ?_, fun h => ?_⟩
  · rw [cleanRow_engagement_metric] at h
    rw [cleanRow_cpe, if_neg (not_lt.mpr h)]
  · rw [cleanRow_engagement_metric] at h
    rw [cleanRow_cpe, if_pos h, cleanRow_ad_spend, cleanRow_engagement_metric]
  · rw [cleanRow_cpc, if_neg (not_lt.mpr h)]
  · rw [cleanRow_cpc, if_pos h, cleanRow_ad_spend]

/-- C6 witness: both guard branches of each metric, on concrete rows. -/
theorem c6_witness :
    (cleanRow exHdr exRowEng3).cost_per_engagement =
      round2 ((cleanRow exHdr exRowEng3).ad_spend /
        (cleanRow exHdr exRowEng3).engagement_metric) ∧
      (cleanRow exHdr exRowEngNeg).cost_per_engagement = 0 ∧
      (cleanRow exHdr exRowSpec).cost_per_conversion =
        round2 ((cleanRow exHdr exRowSpec).ad_spend /
          ((cleanRow exHdr exRowSpec).conversions : ℚ)) ∧
      (cleanRow exHdr exRowRateNeg).cost_per_conversion = 0 := by
  refine ⟨(c6_cost_guards exHdr exRowEng3).2.1 ?_,
    (c6_cost_guards exHdr exRowEngNeg).1 ?_,
    (c6_cost_guards exHdr exRowSpec).2.2.2 ?_,
    (c6_cost_guards exHdr exRowRateNeg).2.2.1 ?_⟩
  · rw [eng_exRowEng3]
    norm_num
  · rw [eng_exRowEngNeg]
    norm_num
  · rw [conv_exRowSpec]
    norm_num
  · rw [conv_exRowRateNeg]
    norm_num

/-- C7 (counterexample): `conversions` is not always non-negative: with
the parseable dirty `conversion_rate = -50` and `audience_reach = 10` the
derived `conversions` is `-5 < 0`. -/
theorem c7_counterexample :
    (cleanRow exHdr exRowRateNeg).conversions = -5 ∧
      ¬ 0 ≤ (cleanRow exHdr exRowRateNeg).conversions := by
  refine ⟨conv_exRowRateNeg, ?_⟩
  rw [conv_exRowRateNeg]
  norm_num

/-- C7 (amended): `conversions` equals the half-to-even rounding of
`audience_reach * conversion_rate / 100` and is an integer; it is
non-negative whenever the cleaned `conversion_rate` and `audience_reach`
are non-negative, but parseable negative dirty input can make it
negative. -/
theorem c7_conversions_formula (hdr : List String) (row : List (Option String)) :
    (cleanRow hdr row).conversions =
      roundHE (((cleanRow hdr row).audience_reach : ℚ) *
        ((cleanRow hdr row).conversion_rate / 100)) ∧
      (0 ≤ (cleanRow hdr row).conversion_rate → 0 ≤ (cleanRow hdr row).audience_reach →
        0 ≤ (cleanRow hdr row).conversions) := by
  constructor
  · rfl
  · intro h1 h2
    show 0 ≤ roundHE (((cleanRow hdr row).audience_reach : ℚ) *
      ((cleanRow hdr row).conversion_rate / 100))
    apply roundHE_nonneg
    apply mul_nonneg
    · exact_mod_cast h2
    · exact div_nonneg h1 (by norm_num)

/-- C7 witness: the formula and the non-negativity at the spec's worked
scenario row. -/
theorem c7_witness :
    (cleanRow exHdr exRowSpec).conversions =
      roundHE (((cleanRow exHdr exRowSpec).audience_reach : ℚ) *
        ((cleanRow exHdr exRowSpec).conversion_rate / 100)) ∧
      0 ≤ (cleanRow exHdr exRowSpec).conversions := by
  refine ⟨(c7_conversions_formula exHdr exRowSpec).1,
    (c7_conversions_formula exHdr exRowSpec).2 ?_ ?_⟩
  · rw [rate_exRowSpec]
    norm_num
  · rw [reach_exRowSpec]
    norm_num

/-- C8: a missing raw file (caught `FileNotFoundError`) and an empty raw
file (uncaught `EmptyDataError`) both abort the run with no cleaned
output, and the previous contents of the fixed output path are left
untouched. -/
theorem c8_fatal_ingestion (rows : List (List (Option String)))
    (prev : Option (List CleanRow)) :
    preprocess_marketing_data none = none ∧
      preprocess_marketing_data (some ⟨[], rows⟩) = none ∧
      runOn none prev = prev ∧
      runOn (some ⟨[], rows⟩) prev = prev :=
  ⟨rfl, rfl, rfl, rfl⟩

/-- C9: the pipeline output is a deterministic function of the raw input
alone, so running it twice on the same input leaves the output file in the
same state as running it once. -/
theorem c9_idempotent_runs (inp : Option RawInput) (fs : Option (List CleanRow)) :
    runOn inp (runOn inp fs) = runOn inp fs := by
  cases hP : preprocess_marketing_data inp <;> simp [runOn, hP]

/-- C10: on an empty filtered dataframe each of the four insight
generators returns its fixed fallback string at once - no prompt is
interpolated and no call to the generative-text service is made. -/
theorem c10_empty_df_fallback (df : List CampaignRow) (h : df.isEmpty = true) :
    generate_overview_insights df =
      .fallback "Not enough data for an overview analysis." ∧
    generate_channel_insights df = .fallback "Not enough channel data to analyze." ∧
    generate_audience_insights df = .fallback "Not enough audience data to analyze." ∧
    generate_geo_insights df = .fallback "Not enough geographic data to analyze." := by
  refine ⟨?_, ?_, ?_, ?_⟩ <;>
    simp only [generate_overview_insights, generate_channel_insights,
      generate_audience_insights, generate_geo_insights, h, if_true]

/-- C10 witness: the four fallbacks on the concrete empty dataframe. -/
theorem c10_witness :
    generate_overview_insights [] =
      .fallback "Not enough data for an overview analysis." ∧
    generate_channel_insights [] = .fallback "Not enough channel data to analyze." ∧
    generate_audience_insights [] = .fallback "Not enough audience data to analyze." ∧
    generate_geo_insights [] = .fallback "Not enough geographic data to analyze." :=
  c10_empty_df_fallback [] rfl

end MarketingDashboard
